import Mathlib

/-!
# Movie Discovery Platform — verification of the query/state-synchronization core

Shallow embedding of `app.js` (Movie Discovery Platform). The application is a
browser client over the TMDB API; its core is a single mutable `state` record,
handlers that mutate it, and `loadMovies`, which issues at most one fetch at a
time guarded by `state.isLoading`.

Modelling conventions:
* The JS `state` object (app.js lines 15–23) becomes the structure `AppState`.
  The `genres` catalog field is carried along but never touched by the modelled
  transitions (`loadGenres` only populates a dropdown).
* Each user-visible event and each fetch completion becomes an `Action`; the
  function `step` applies the corresponding handler from the source and returns
  the new state together with `Option Request` — `some r` exactly when
  `loadMovies` got past its `isLoading` guard and issued the HTTP request `r`,
  `none` when no fetch was issued.
* JS truthiness on strings (`if (state.searchQuery)`) is the test `≠ ""`;
  truthiness on possibly-undefined numbers is modelled on `Option ℚ`.
* Machine-level JS number semantics are not needed: all compared constants
  (7.5, 6, 500, page counters) are exactly representable, so `ℚ` and `ℕ`
  are faithful.
-/

namespace MovieApp

/-- The application state object (app.js lines 15–23):
`{ currentCategory: 'trending', currentPage: 1, totalPages: 1, searchQuery: '',
   selectedGenre: '', genres: [], isLoading: false }`. -/
structure AppState where
  currentCategory : String
  currentPage : Nat
  totalPages : Nat
  searchQuery : String
  selectedGenre : String
  genres : List (Nat × String)
  isLoading : Bool
deriving Repr, DecidableEq

/-- The initial state literal from app.js lines 15–23. -/
def initState : AppState :=
  { currentCategory := "trending"
    currentPage := 1
    totalPages := 1
    searchQuery := ""
    selectedGenre := ""
    genres := []
    isLoading := false }

/-- The outbound HTTP request assembled inside `loadMovies` (app.js lines
254–283): an endpoint path plus the `page`, optional `query` and optional
`with_genres` parameters. -/
structure Request where
  endpoint : String
  page : Nat
  query : Option String
  withGenres : Option String
deriving Repr, DecidableEq

/-- The `switch (state.currentCategory)` of app.js lines 265–277: category →
endpoint path, with the `default:` arm mapping every other value to the
trending endpoint. -/
def categoryEndpoint (c : String) : String :=
  if c = "trending" then "/trending/movie/week"
  else if c = "popular" then "/movie/popular"
  else if c = "top_rated" then "/movie/top_rated"
  else "/trending/movie/week"

/-- Request derivation from app.js lines 254–283: `params = { page }`; if
`state.searchQuery` is truthy (non-empty) the endpoint is `/search/movie` with
`params.query = searchQuery`, otherwise the endpoint comes from the category
switch; if `state.selectedGenre` is truthy, `params.with_genres` is added on
either path. -/
def buildRequest (s : AppState) : Request :=
  { endpoint := if s.searchQuery ≠ "" then "/search/movie" else categoryEndpoint s.currentCategory
    page := s.currentPage
    query := if s.searchQuery ≠ "" then some s.searchQuery else none
    withGenres := if s.selectedGenre ≠ "" then some s.selectedGenre else none }

/-- `loadMovies` up to its suspension point (app.js lines 246–285): if
`state.isLoading` it returns immediately and no fetch is issued; otherwise it
sets `isLoading = true` and issues the request derived from the current state. -/
def loadMovies (s : AppState) : AppState × Option Request :=
  if s.isLoading then (s, none)
  else ({ s with isLoading := true }, some (buildRequest s))

/-- `Math.min(data.total_pages || 1, 500)` from app.js line 288: an absent or
zero `total_pages` in the response body counts as 1 (JS `||` on a falsy
number), and the result is clamped to TMDB's 500-page hard limit. -/
def clampTotal (tp : Option Nat) : Nat :=
  min (match tp with | none => 1 | some n => if n = 0 then 1 else n) 500

/-- `String.prototype.trim()` as used by `handleSearch` (app.js line 311):
strip leading and trailing whitespace. Implemented over the character list so
that it evaluates inside the kernel. -/
def jsTrim (s : String) : String :=
  ⟨((s.data.dropWhile Char.isWhitespace).reverse.dropWhile Char.isWhitespace).reverse⟩

/-- The events that drive the state machine: the debounced search intent
(`handleSearch` firing), the category/genre change handlers, the two pagination
directions of `goToPage`, and the completion (success with the response's
`total_pages`, or failure) of the in-flight fetch. -/
inductive Action where
  | searchIntent (q : String)
  | categoryChange (c : String)
  | genreChange (g : String)
  | pageNext
  | pagePrev
  | fetchComplete (totalPages : Option Nat)
  | fetchFail
deriving Repr, DecidableEq

/-- The user-initiated, fetch-triggering actions (as opposed to fetch
completions delivered by the network). -/
def Action.isUser : Action → Bool
  | .searchIntent _ => true
  | .categoryChange _ => true
  | .genreChange _ => true
  | .pageNext => true
  | .pagePrev => true
  | .fetchComplete _ => false
  | .fetchFail => false

/-- One transition of the app: each constructor applies the corresponding
handler from app.js verbatim, then (for the user handlers) runs `loadMovies`.
* `searchIntent q` — `handleSearch` body (lines 310–314): `searchQuery =
  q.trim()`, `currentPage = 1`, `loadMovies()`.
* `categoryChange c` — `handleCategoryChange` (lines 319–325): set category,
  clear `searchQuery`, `currentPage = 1`, `loadMovies()`.
* `genreChange g` — `handleGenreChange` (lines 330–334).
* `pageNext` / `pagePrev` — `goToPage` (lines 339–349): mutate the cursor and
  call `loadMovies()` only when the bound check passes, else do nothing.
* `fetchComplete tp` — the success path of `loadMovies` (lines 285–292 and the
  `finally` at 301–304): store the clamped total-page count, clear `isLoading`.
* `fetchFail` — the `catch`/`finally` path (lines 294–304): state-wise it only
  clears `isLoading`. -/
def step : AppState → Action → AppState × Option Request
  | s, .searchIntent q =>
      loadMovies { s with searchQuery := jsTrim q, currentPage := 1 }
  | s, .categoryChange c =>
      loadMovies { s with currentCategory := c, searchQuery := "", currentPage := 1 }
  | s, .genreChange g =>
      loadMovies { s with selectedGenre := g, currentPage := 1 }
  | s, .pageNext =>
      if s.currentPage < s.totalPages then
        loadMovies { s with currentPage := s.currentPage + 1 }
      else (s, none)
  | s, .pagePrev =>
      if 1 < s.currentPage then
        loadMovies { s with currentPage := s.currentPage - 1 }
      else (s, none)
  | s, .fetchComplete tp =>
      ({ s with totalPages := clampTotal tp, isLoading := false }, none)
  | s, .fetchFail =>
      ({ s with isLoading := false }, none)

/-- Run a list of actions from a state (final state only). -/
def runTrace : AppState → List Action → AppState
  | s, [] => s
  | s, a :: rest => runTrace (step s a).1 rest

/-- Admissibility of one event against the current state. A fetch completion
(success or failure) can only be delivered while a fetch is actually in flight
(`isLoading = true`); user actions are always possible. With `good = true` the
environment is additionally well-behaved: a completed fetch never reports a
(clamped) total-page count below the page cursor outstanding at completion
time. With `good = false` the remote may report anything. -/
def okStepB (good : Bool) (s : AppState) (a : Action) : Bool :=
  match a with
  | .fetchComplete tp =>
      s.isLoading && (!good || decide (s.currentPage ≤ clampTotal tp))
  | .fetchFail => s.isLoading
  | _ => true

/-- Admissibility of a whole trace from a state. -/
def runOkB (good : Bool) : AppState → List Action → Bool
  | _, [] => true
  | s, a :: rest => okStepB good s a && runOkB good (step s a).1 rest

/-- `debounce(func, delay)` (app.js lines 35–41) as a function on timed
keystroke traces. A keystroke at time `t` does `clearTimeout` on the pending
timer and schedules the callback at `t + delay`; hence on a time-ordered trace
the pending call of the keystroke at `t` actually fires (at `t + delay`,
carrying that keystroke's text) exactly when no further keystroke arrives
strictly before `t + delay`. The result is the list of (fire time, raw text)
callback invocations. -/
def debounceRun (delay : Nat) : List (Nat × String) → List (Nat × String)
  | [] => []
  | (t, s) :: rest =>
    match rest with
    | [] => [(t + delay, s)]
    | (u, _) :: _ =>
      if t + delay ≤ u then (t + delay, s) :: debounceRun delay rest
      else debounceRun delay rest

/-- The search-intent events produced by `handleSearch = debounce((query) => {
state.searchQuery = query.trim(); ... }, 500)` (app.js lines 310–314): each
debounced callback fires with the raw text and trims it on entry. -/
def searchIntents (delay : Nat) (ks : List (Nat × String)) : List (Nat × String) :=
  (debounceRun delay ks).map (fun f => (f.1, jsTrim f.2))

/-- `Number.prototype.toFixed(1)` restricted to the nonnegative ratings the
app formats: round to the nearest tenth (ties up) and print one decimal. Only
its value at representative points is used in theorems. -/
def toFixed1 (q : ℚ) : String :=
  toString (⌊q * 10 + 1 / 2⌋ / 10) ++ "." ++ toString (⌊q * 10 + 1 / 2⌋ % 10)

/-- `formatRating` (app.js lines 87–89): `voteAverage ? voteAverage.toFixed(1)
: 'N/A'`. The argument is the possibly-absent `movie.vote_average`; JS
truthiness on a number is false for `undefined` and for `0`, so both fall to
the `'N/A'` branch. -/
def formatRating (voteAverage : Option ℚ) : String :=
  match voteAverage with
  | none => "N/A"
  | some q => if q ≠ 0 then toFixed1 q else "N/A"

/-- `getRatingColor` (app.js lines 96–100). The argument is
`movie.vote_average`, possibly absent: in JS `undefined >= x` is false for
every `x`, so an absent rating falls through both guards to `'text-red-400'`;
the `none` arm records exactly that fall-through. -/
def getRatingColor (rating : Option ℚ) : String :=
  match rating with
  | some r =>
      if 7.5 ≤ r then "text-green-400"
      else if 6 ≤ r then "text-yellow-400"
      else "text-red-400"
  | none => "text-red-400"

/-- JS truthiness of `window.TMDB_TOKEN`: absent (`undefined`) and the empty
string are both falsy. -/
def tokenPresent : Option String → Bool
  | none => false
  | some s => !s.isEmpty

/-- What `fetchFromTMDB` (app.js lines 49–69) does before any response
arrives: either it throws the configuration error at line 51 (when the token
is falsy, before any `fetch` call), or it performs the network request for the
given endpoint and parameters. -/
inductive FetchOutcome where
  | configError (msg : String)
  | networkRequest (endpoint : String) (params : List (String × String))
deriving Repr, DecidableEq

/-- `fetchFromTMDB` up to the outbound `fetch` (app.js lines 49–62): the token
guard comes first, so a falsy token yields the configuration error and no
network I/O is ever attempted. -/
def fetchFromTMDB (token : Option String) (endpoint : String)
    (params : List (String × String)) : FetchOutcome :=
  if tokenPresent token then .networkRequest endpoint params
  else .configError "TMDB API token not found. Please set window.TMDB_TOKEN"

/-- The two ways `init` (app.js lines 388–404) can go: show the configuration
error and return (no listeners, no `loadGenres`, no `loadMovies`), or start
the app (and only then issue the startup fetches). -/
inductive InitResult where
  | configErrorShown (msg : String)
  | appStarted
deriving Repr, DecidableEq

/-- `init` (app.js lines 388–404): the token check is first; when the token is
falsy it shows the error banner and returns before any data loading. -/
def init (token : Option String) : InitResult :=
  if tokenPresent token then .appStarted
  else .configErrorShown "TMDB API token not configured. Please set window.TMDB_TOKEN in your browser console or configuration."

/-! ## Helper lemmas -/

/-- `loadMovies` only toggles `isLoading`: it never moves the page cursor or
the stored total-page count. -/
theorem loadMovies_fst_fields (s : AppState) :
    (loadMovies s).1.currentPage = s.currentPage ∧
    (loadMovies s).1.totalPages = s.totalPages := by
  unfold loadMovies
  split <;> exact ⟨rfl, rfl⟩

/-- The `if (state.isLoading) return;` guard: a `loadMovies` call on a state
already marked loading issues no request. -/
theorem loadMovies_snd_of_loading (s : AppState) (h : s.isLoading = true) :
    (loadMovies s).2 = none := by
  simp [loadMovies, h]

/-- The page-cursor invariant maintained by the UI: the cursor is at least 1
and does not exceed the stored total-page count. -/
def pageInv (s : AppState) : Prop :=
  1 ≤ s.currentPage ∧ s.currentPage ≤ s.totalPages

/-- `loadMovies` preserves the page-cursor invariant (it touches neither
field). -/
theorem pageInv_loadMovies (s : AppState) (h : pageInv s) :
    pageInv (loadMovies s).1 := by
  unfold loadMovies
  split
  · exact h
  · exact h

/-- One admissible well-behaved step preserves the page-cursor invariant:
every handler either resets the cursor to 1, moves it within the checked
bounds, or stores a completion total that is (by the well-behavedness side
condition) at least the outstanding cursor. -/
theorem pageInv_step (s : AppState) (a : Action)
    (hInv : pageInv s) (hok : okStepB true s a = true) :
    pageInv (step s a).1 := by
  obtain ⟨h1, h2⟩ := hInv
  cases a with
  | searchIntent q =>
      exact pageInv_loadMovies _ ⟨le_refl 1, le_trans h1 h2⟩
  | categoryChange c =>
      exact pageInv_loadMovies _ ⟨le_refl 1, le_trans h1 h2⟩
  | genreChange g =>
      exact pageInv_loadMovies _ ⟨le_refl 1, le_trans h1 h2⟩
  | pageNext =>
      simp only [step]
      split
      · rename_i hlt
        exact pageInv_loadMovies _
          ⟨(show 1 ≤ s.currentPage + 1 by omega),
           (show s.currentPage + 1 ≤ s.totalPages by omega)⟩
      · exact ⟨h1, h2⟩
  | pagePrev =>
      simp only [step]
      split
      · rename_i hlt
        exact pageInv_loadMovies _
          ⟨(show 1 ≤ s.currentPage - 1 by omega),
           (show s.currentPage - 1 ≤ s.totalPages by omega)⟩
      · exact ⟨h1, h2⟩
  | fetchComplete tp =>
      simp only [okStepB, Bool.not_true, Bool.false_or, Bool.and_eq_true,
        decide_eq_true_eq] at hok
      exact ⟨h1, hok.2⟩
  | fetchFail =>
      exact ⟨h1, h2⟩

/-- The page-cursor invariant is preserved along any admissible well-behaved
trace. -/
theorem pageInv_runTrace (tr : List Action) : ∀ s : AppState, pageInv s →
    runOkB true s tr = true → pageInv (runTrace s tr) := by
  induction tr with
  | nil => exact fun s h _ => h
  | cons a rest ih =>
      intro s h hok
      simp only [runOkB, Bool.and_eq_true] at hok
      exact ih _ (pageInv_step s a h hok.1) hok.2

/-! ## Claim theorems -/

/-- C1: at most one fetch is logically in flight at any time — for every state
with `isLoading = true`, any triggering action (search intent, category
change, genre change, pagination) produces no additional fetch: the attempted
fetch is dropped by the `if (state.isLoading) return;` guard of `loadMovies`,
not queued. -/
theorem loading_coalesces_triggering_actions (s : AppState) (a : Action)
    (hl : s.isLoading = true) (hu : a.isUser = true) :
    (step s a).2 = none := by
  cases a with
  | searchIntent q => exact loadMovies_snd_of_loading _ hl
  | categoryChange c => exact loadMovies_snd_of_loading _ hl
  | genreChange g => exact loadMovies_snd_of_loading _ hl
  | pageNext =>
      simp only [step]
      split
      · exact loadMovies_snd_of_loading _ hl
      · rfl
  | pagePrev =>
      simp only [step]
      split
      · exact loadMovies_snd_of_loading _ hl
      · rfl
  | fetchComplete tp => rfl
  | fetchFail => rfl

/-- A state with a fetch in flight, used to witness the coalescing guard. -/
def loadingState : AppState :=
  { initState with isLoading := true }

/-- Witness for C1: with a fetch in flight, a category change issues no second
fetch. -/
theorem loading_coalesces_triggering_actions_witness :
    (step loadingState (.categoryChange "popular")).2 = none :=
  loading_coalesces_triggering_actions loadingState (.categoryChange "popular") rfl rfl

/-- C3: every `setSearch`/`setCategory`/`setGenre` call (`handleSearch`,
`handleCategoryChange`, `handleGenreChange` in app.js lines 310–334) leaves
the state with `page = 1`, in any sequence — each handler unconditionally sets
`currentPage = 1` and `loadMovies` never moves it. -/
theorem filter_changes_reset_page_to_one (s : AppState) (q c g : String) :
    (step s (.searchIntent q)).1.currentPage = 1 ∧
    (step s (.categoryChange c)).1.currentPage = 1 ∧
    (step s (.genreChange g)).1.currentPage = 1 :=
  ⟨(loadMovies_fst_fields _).1, (loadMovies_fst_fields _).1,
   (loadMovies_fst_fields _).1⟩

/-- C10: invoking `goToPage` while `isLoading` is true (with the bound check
passing) still mutates the page cursor by 1, while the in-flight guard inside
`loadMovies` suppresses the fetch — so the cursor moves with no fetch issued. -/
theorem pagination_while_loading_mutates_cursor_without_fetch
    (s : AppState) (hl : s.isLoading = true) :
    (s.currentPage < s.totalPages →
      (step s .pageNext).1.currentPage = s.currentPage + 1 ∧
      (step s .pageNext).2 = none) ∧
    (1 < s.currentPage →
      (step s .pagePrev).1.currentPage = s.currentPage - 1 ∧
      (step s .pagePrev).2 = none) := by
  constructor
  · intro h
    simp only [step, if_pos h]
    exact ⟨(loadMovies_fst_fields _).1, loadMovies_snd_of_loading _ hl⟩
  · intro h
    simp only [step, if_pos h]
    exact ⟨(loadMovies_fst_fields _).1, loadMovies_snd_of_loading _ hl⟩

/-- A mid-pagination state with a fetch in flight, used to witness the
cursor-vs-fetch divergence. -/
def loadingMidState : AppState :=
  { initState with currentPage := 2, totalPages := 3, isLoading := true }

/-- Witness for C10: from page 2 of 3 with a fetch in flight, `next` moves the
cursor to 3 and issues no fetch. -/
theorem pagination_while_loading_mutates_cursor_without_fetch_witness :
    (step loadingMidState .pageNext).1.currentPage = 3 ∧
    (step loadingMidState .pageNext).2 = none :=
  (pagination_while_loading_mutates_cursor_without_fetch loadingMidState rfl).1
    (by decide)

/-- A trace refuting the unconditional form of the page ≤ totalPages
invariant: browse to page 2 of 2, then let the remote report only 1 total page
for the page-2 fetch. Every completion is delivered while a fetch is in flight
(`runOkB false` checks exactly that), yet the final state has its cursor past
the stored total. -/
def shrinkingRemoteTrace : List Action :=
  [.genreChange "", .fetchComplete (some 2), .pageNext, .fetchComplete (some 1)]

/-- Counterexample to C2 as stated: a reachable state (user actions plus fetch
completions, each completion delivered while a fetch was in flight) in which
`totalPages` has been set from a fetch result and yet `page > totalPages` —
the success path of `loadMovies` stores `Math.min(data.total_pages || 1, 500)`
without ever adjusting `currentPage`. -/
theorem page_exceeds_totalPages_on_shrinking_remote :
    runOkB false initState shrinkingRemoteTrace = true ∧
    (runTrace initState shrinkingRemoteTrace).currentPage = 2 ∧
    (runTrace initState shrinkingRemoteTrace).totalPages = 1 ∧
    ¬ (runTrace initState shrinkingRemoteTrace).currentPage ≤
        (runTrace initState shrinkingRemoteTrace).totalPages := by
  exact ⟨by decide, by decide, by decide, by decide⟩

/-- C2 amended: along every admissible trace from the initial state in which
each fetch completion reports a (clamped) total-page count at least the page
cursor outstanding at completion time, every reached state satisfies
`page ≤ totalPages`. (Unconditionally, a completion reporting a smaller total
than an already-advanced cursor violates the invariant, as the counterexample
trace shows.) -/
theorem page_le_totalPages_of_wellBehaved_completions (tr : List Action)
    (h : runOkB true initState tr = true) :
    (runTrace initState tr).currentPage ≤ (runTrace initState tr).totalPages :=
  (pageInv_runTrace tr initState ⟨le_refl 1, le_refl 1⟩ h).2

/-- Witness for C2 (amended): a concrete well-behaved trace — start a fetch
via a genre change, complete it with 3 total pages, page forward, complete
with 3 again — ends with the cursor within bounds. -/
theorem page_le_totalPages_of_wellBehaved_completions_witness :
    runOkB true initState
        [.genreChange "", .fetchComplete (some 3), .pageNext, .fetchComplete (some 3)] = true ∧
    (runTrace initState
        [.genreChange "", .fetchComplete (some 3), .pageNext, .fetchComplete (some 3)]).currentPage ≤
      (runTrace initState
        [.genreChange "", .fetchComplete (some 3), .pageNext, .fetchComplete (some 3)]).totalPages :=
  ⟨by decide,
   page_le_totalPages_of_wellBehaved_completions
     [.genreChange "", .fetchComplete (some 3), .pageNext, .fetchComplete (some 3)]
     (by decide)⟩

/-- C4: `goToPage 'next'` advances the cursor by exactly 1 only when
`page < totalPages`, `goToPage 'prev'` decrements by exactly 1 only when
`page > 1`, each is a complete no-op otherwise (state and fetch both), and
from any in-bounds state pagination leaves the cursor inside
`[1, totalPages]`. -/
theorem pagination_bounded (s : AppState)
    (h1 : 1 ≤ s.currentPage) (h2 : s.currentPage ≤ s.totalPages) :
    (s.currentPage < s.totalPages →
      (step s .pageNext).1.currentPage = s.currentPage + 1) ∧
    (s.totalPages ≤ s.currentPage → step s .pageNext = (s, none)) ∧
    (1 < s.currentPage →
      (step s .pagePrev).1.currentPage = s.currentPage - 1) ∧
    (s.currentPage ≤ 1 → step s .pagePrev = (s, none)) ∧
    (1 ≤ (step s .pageNext).1.currentPage ∧
      (step s .pageNext).1.currentPage ≤ s.totalPages) ∧
    (1 ≤ (step s .pagePrev).1.currentPage ∧
      (step s .pagePrev).1.currentPage ≤ s.totalPages) := by
  refine ⟨fun h => ?_, fun h => ?_, fun h => ?_, fun h => ?_, ?_, ?_⟩
  · simp only [step, if_pos h]
    exact (loadMovies_fst_fields _).1
  · simp only [step, if_neg (by omega : ¬ s.currentPage < s.totalPages)]
  · simp only [step, if_pos h]
    exact (loadMovies_fst_fields _).1
  · simp only [step, if_neg (by omega : ¬ 1 < s.currentPage)]
  · by_cases h : s.currentPage < s.totalPages
    · simp only [step, if_pos h]
      rw [(loadMovies_fst_fields _).1]
      exact ⟨show 1 ≤ s.currentPage + 1 by omega,
             show s.currentPage + 1 ≤ s.totalPages by omega⟩
    · simp only [step, if_neg h]
      omega
  · by_cases h : 1 < s.currentPage
    · simp only [step, if_pos h]
      rw [(loadMovies_fst_fields _).1]
      exact ⟨show 1 ≤ s.currentPage - 1 by omega,
             show s.currentPage - 1 ≤ s.totalPages by omega⟩
    · simp only [step, if_neg h]
      omega

/-- A mid-pagination idle state (page 2 of 3), used to witness the pagination
bounds. -/
def midState : AppState :=
  { initState with currentPage := 2, totalPages := 3 }

/-- Witness for C4: from page 2 of 3, `next` lands on 3 and `prev` lands
on 1. -/
theorem pagination_bounded_witness :
    (step midState .pageNext).1.currentPage = 3 ∧
    (step midState .pagePrev).1.currentPage = 1 := by
  have h := pagination_bounded midState (by decide) (by decide)
  exact ⟨h.1 (by decide), h.2.2.1 (by decide)⟩

/-- C5: the derived request targets the search endpoint with
`query = searchText` when `searchText` is non-empty; otherwise it targets the
endpoint mapped from the category (trending/popular/top_rated), defaulting to
the trending endpoint for any unrecognized category value; and a set (i.e.
non-empty) `genreId` is attached as `with_genres` on either path, alongside
the page parameter. -/
theorem request_derivation (s : AppState) :
    (s.searchQuery ≠ "" →
      (buildRequest s).endpoint = "/search/movie" ∧
      (buildRequest s).query = some s.searchQuery) ∧
    (s.searchQuery = "" →
      (buildRequest s).query = none ∧
      (buildRequest s).endpoint = categoryEndpoint s.currentCategory ∧
      (s.currentCategory ≠ "trending" → s.currentCategory ≠ "popular" →
        s.currentCategory ≠ "top_rated" →
        (buildRequest s).endpoint = "/trending/movie/week")) ∧
    (buildRequest s).page = s.currentPage ∧
    (s.selectedGenre ≠ "" →
      (buildRequest s).withGenres = some s.selectedGenre) ∧
    (s.selectedGenre = "" → (buildRequest s).withGenres = none) := by
  refine ⟨fun h => ⟨?_, ?_⟩, fun h => ⟨?_, ?_, fun ht hp hr => ?_⟩, rfl,
    fun h => ?_, fun h => ?_⟩
  · simp [buildRequest, h]
  · simp [buildRequest, h]
  · simp [buildRequest, h]
  · simp [buildRequest, h]
  · simp [buildRequest, h, categoryEndpoint, ht, hp, hr]
  · simp [buildRequest, h]
  · simp [buildRequest, h]

/-- A state mid-search with a genre filter, used to witness the request
derivation. -/
def searchState : AppState :=
  { initState with searchQuery := "matrix", selectedGenre := "28" }

/-- Witness for C5: searching "matrix" with genre 28 selected targets the
search endpoint with the query and the genre filter attached. -/
theorem request_derivation_witness :
    (buildRequest searchState).endpoint = "/search/movie" ∧
    (buildRequest searchState).query = some "matrix" ∧
    (buildRequest searchState).withGenres = some "28" :=
  ⟨((request_derivation searchState).1 (by decide)).1,
   ((request_derivation searchState).1 (by decide)).2,
   (request_derivation searchState).2.2.2.1 (by decide)⟩

/-- C6: with the bearer credential absent (falsy `window.TMDB_TOKEN`),
`fetchFromTMDB` fails immediately with the configuration error and performs no
network request, and `init` shows the configuration error immediately instead
of starting the app (so no network call is attempted at startup). -/
theorem missing_token_fails_without_network (token : Option String)
    (endpoint : String) (params : List (String × String))
    (h : tokenPresent token = false) :
    fetchFromTMDB token endpoint params =
      .configError "TMDB API token not found. Please set window.TMDB_TOKEN" ∧
    (∀ (e : String) (p : List (String × String)),
      fetchFromTMDB token endpoint params ≠ .networkRequest e p) ∧
    init token = .configErrorShown
      "TMDB API token not configured. Please set window.TMDB_TOKEN in your browser console or configuration." := by
  refine ⟨?_, ?_, ?_⟩
  · simp [fetchFromTMDB, h]
  · intro e p
    simp [fetchFromTMDB, h]
  · simp [init, h]

/-- Witness for C6: an unset token makes a popular-movies fetch fail with the
configuration error before any I/O. -/
theorem missing_token_fails_without_network_witness :
    tokenPresent none = false ∧
    fetchFromTMDB none "/movie/popular" [("page", "1")] =
      .configError "TMDB API token not found. Please set window.TMDB_TOKEN" :=
  ⟨rfl, (missing_token_fails_without_network none "/movie/popular"
    [("page", "1")] rfl).1⟩

/-- Counterexample to C7 as stated: the claim says an absent rating gets the
textual value "N/A" with *neutral* styling, but `renderMovies` styles the
badge with `getRatingColor(movie.vote_average)` unconditionally, and in JS
`undefined >= 7.5` and `undefined >= 6` are both false — so an absent rating
receives exactly the poor band's class `text-red-400`, the same class as a
rating of 3; no neutral style exists in the code. -/
theorem absent_rating_gets_poor_band_styling :
    getRatingColor none = "text-red-400" ∧
    getRatingColor (some 3) = "text-red-400" ∧
    getRatingColor none = getRatingColor (some 3) ∧
    formatRating none = "N/A" := by
  have h3 : getRatingColor (some 3) = "text-red-400" := by
    norm_num [getRatingColor]
  exact ⟨rfl, h3, h3.symm, rfl⟩

/-- C7 amended: `getRatingColor` maps every present rating ≥ 7.5 to the
"good" band class, every present rating in [6.0, 7.5) to the "medium" band
class, and every present rating < 6.0 to the "poor" band class; an absent
rating is rendered as the textual value "N/A" but styled with the poor band's
class (red), not a neutral style. -/
theorem rating_banding (v : ℚ) :
    (7.5 ≤ v → getRatingColor (some v) = "text-green-400") ∧
    (6 ≤ v → v < 7.5 → getRatingColor (some v) = "text-yellow-400") ∧
    (v < 6 → getRatingColor (some v) = "text-red-400") ∧
    formatRating none = "N/A" ∧
    getRatingColor none = "text-red-400" := by
  refine ⟨fun h => ?_, fun h6 h75 => ?_, fun h => ?_, rfl, rfl⟩
  · show (if (7.5 : ℚ) ≤ v then "text-green-400"
      else if (6 : ℚ) ≤ v then "text-yellow-400" else "text-red-400") =
      "text-green-400"
    rw [if_pos h]
  · show (if (7.5 : ℚ) ≤ v then "text-green-400"
      else if (6 : ℚ) ≤ v then "text-yellow-400" else "text-red-400") =
      "text-yellow-400"
    rw [if_neg (by linarith), if_pos h6]
  · show (if (7.5 : ℚ) ≤ v then "text-green-400"
      else if (6 : ℚ) ≤ v then "text-yellow-400" else "text-red-400") =
      "text-red-400"
    rw [if_neg (by linarith), if_neg (by linarith)]

/-- Witness for C7 (amended): 8 lands in the good band, 6.5 in the medium
band, 3 in the poor band. -/
theorem rating_banding_witness :
    getRatingColor (some 8) = "text-green-400" ∧
    getRatingColor (some 6.5) = "text-yellow-400" ∧
    getRatingColor (some 3) = "text-red-400" :=
  ⟨(rating_banding 8).1 (by norm_num),
   (rating_banding 6.5).2.1 (by norm_num) (by norm_num),
   (rating_banding 3).2.2.1 (by norm_num)⟩

/-- C8: for keystrokes at t = 0, 100, 200, 600 ms with a 500 ms quiet
threshold, the debounced coordinator fires exactly one search intent, at
t = 1100 ms, carrying the last entered text trimmed; and in general every
keystroke arriving strictly before the pending fire time cancels the pending
call and restarts the timer (the `clearTimeout`/`setTimeout` pair of
`debounce`). -/
theorem debounce_single_intent_trace :
    (∀ a b c d : String,
      searchIntents 500 [(0, a), (100, b), (200, c), (600, d)] =
        [(1100, jsTrim d)]) ∧
    (∀ (t u : Nat) (x y : String) (rest : List (Nat × String)), u < t + 500 →
      debounceRun 500 ((t, x) :: (u, y) :: rest) =
        debounceRun 500 ((u, y) :: rest)) := by
  constructor
  · intro a b c d
    rfl
  · intro t u x y rest h
    have hunfold : debounceRun 500 ((t, x) :: (u, y) :: rest) =
        if t + 500 ≤ u then (t + 500, x) :: debounceRun 500 ((u, y) :: rest)
        else debounceRun 500 ((u, y) :: rest) := rfl
    rw [hunfold, if_neg (by omega)]

/-- Witness for C8: the concrete four-keystroke burst ending in " zz " fires
the single intent (1100, "zz"), and a keystroke at t = 100 cancels the call
pending from t = 0. -/
theorem debounce_single_intent_trace_witness :
    searchIntents 500 [(0, "a"), (100, "b"), (200, "c"), (600, " zz ")] =
      [(1100, "zz")] ∧
    ((100 : Nat) < 0 + 500 ∧
      debounceRun 500 [(0, "x"), (100, "y")] = debounceRun 500 [(100, "y")]) :=
  ⟨debounce_single_intent_trace.1 "a" "b" "c" " zz ",
   by decide,
   debounce_single_intent_trace.2 0 100 "x" "y" [] (by decide)⟩

/-- C9: a present `voteAverage` of exactly 0 — a value inside the valid 0–10
range — is formatted as "N/A" rather than "0.0", because `formatRating` tests
presence with JS truthiness (`voteAverage ? ... : 'N/A'`) and 0 is falsy; a
zero-rated movie is thus rendered exactly as if its rating were absent. -/
theorem zero_rating_formats_as_na :
    formatRating (some 0) = "N/A" ∧
    formatRating (some 0) = formatRating none ∧
    toFixed1 0 = "0.0" ∧
    formatRating (some 0) ≠ toFixed1 0 := by
  have hfx : toFixed1 0 = "0.0" := by
    have hfl : (⌊(0 : ℚ) * 10 + 1 / 2⌋ : ℤ) = 0 := by norm_num
    simp only [toFixed1]
    rw [hfl]
    rfl
  have hna : formatRating (some 0) = "N/A" := by simp [formatRating]
  refine ⟨hna, hna.trans rfl, hfx, ?_⟩
  rw [hna, hfx]
  decide

end MovieApp
